import Mathlib

/-!
# Verification of the AI hedge-fund backtesting system

Shallow embedding of the repository's frontend code
(`app/frontend/app/hedge-fund/page.tsx`, the `useAgentChat` hook) and of the
backtesting engine.  The engine itself (session controller, portfolio ledger,
risk/portfolio managers, performance calculator) is not present in the source
tree — only its API documentation (`app/backend/BACKTESTING_API_GUIDE.md`) and
its frontend callers are — so those components are modelled from the design
specification, as marked on each definition.

Money amounts are modelled as rationals (the source uses IEEE doubles; all
claims checked here are exact at rational precision), share quantities as
naturals, and JavaScript strings as `List Char`.
-/

namespace AIHedgeFund

/-! ## JavaScript string primitives used by the dashboard page

`tickers.split(',')`, `String.prototype.trim` and `toUpperCase`, as used in
`app/frontend/app/hedge-fund/page.tsx`.  JS `split` keeps empty segments
(`"X,".split(',') = ["X",""]`); `trim` strips leading and trailing whitespace.
-/

/-- JS `String.prototype.trim`: drop leading and trailing whitespace. -/
def jsTrim (s : List Char) : List Char :=
  ((s.dropWhile Char.isWhitespace).reverse.dropWhile Char.isWhitespace).reverse

/-- JS `String.prototype.toUpperCase` (ASCII-faithful). -/
def jsToUpper (s : List Char) : List Char := s.map Char.toUpper

/-- JS `s.split(',')`: every comma separates, empty segments are kept;
`"".split(',') = [""]`. -/
def splitComma : List Char → List (List Char)
  | [] => [[]]
  | c :: cs =>
    if c = ',' then [] :: splitComma cs
    else
      match splitComma cs with
      | [] => [[c]]
      | t :: ts => (c :: t) :: ts

/-- JS truthiness of a string: nonempty. -/
def jsTruthyStr (s : List Char) : Bool := !s.isEmpty

end AIHedgeFund

namespace AIHedgeFund

/-- `page.tsx` `runBacktest`/`runAnalysis` line 152/108: the `tickers` field of
the request body, `tickers.split(',').map(t => t.trim().toUpperCase())`. -/
def requestTickers (tickers : List Char) : List (List Char) :=
  (splitComma tickers).map (fun t => jsToUpper (jsTrim t))

/-- `page.tsx` line 141/97: the pre-send guard
`if (!tickers.trim() || selectedAgents.length === 0)` rejects the run. -/
def guardRejects (tickers : List Char) (selectedAgentsLen : Nat) : Bool :=
  !jsTruthyStr (jsTrim tickers) || selectedAgentsLen == 0

/-- `page.tsx` line 255: the dashboard "Tracked Stocks" count,
`tickers.split(',').filter(t => t.trim()).length`. -/
def trackedStocksCount (tickers : List Char) : Nat :=
  ((splitComma tickers).filter (fun t => jsTruthyStr (jsTrim t))).length

end AIHedgeFund

namespace AIHedgeFund

/-! ## `useAgentChat.sendMessage` (frontend hook)

The hook keeps `messages : ChatMessage[]` and `error : string | null` in React
state.  `sendMessage` optimistically appends the user message, performs the
HTTP call, and on success appends the assistant message while on failure it
removes the last message (`prev.slice(0, -1)`) and records the error.  The
HTTP call is modelled by its outcome: `Except err response` (a thrown fetch
error or a non-ok status both land in the `catch` with an error message). -/

inductive ChatRole where
  | user
  | assistant
deriving DecidableEq, Repr

structure ChatMessage where
  id : String
  role : ChatRole
  content : String
deriving DecidableEq, Repr

/-- `useAgentChat.sendMessage`: `now` models `Date.now()`, `outcome` the fetch
result.  Returns the final `messages` state and the final `error` state. -/
def sendMessage (messages : List ChatMessage) (content : String) (now : Nat)
    (outcome : Except String String) : List ChatMessage × Option String :=
  let userMessage : ChatMessage := ⟨toString now, ChatRole.user, content⟩
  let updatedMessages := messages ++ [userMessage]
  match outcome with
  | Except.ok resp =>
    (updatedMessages ++ [⟨toString (now + 1), ChatRole.assistant, resp⟩], none)
  | Except.error e =>
    (updatedMessages.dropLast, some e)

end AIHedgeFund

namespace AIHedgeFund

/-! ## Dashboard results panel (backtest tab)

`page.tsx` lines 491–545: the performance cards.  The Sharpe block is guarded
by `backtestResult.performance_metrics.sharpe_ratio && (...)` and, nested
inside it, the Max Drawdown card by `... .max_drawdown && (...)`; JS number
truthiness makes `0` falsy. -/

structure PerformanceMetrics where
  total_return : ℚ
  final_value : ℚ
  initial_capital : ℚ
  sharpe_ratio : ℚ
  max_drawdown : ℚ
deriving DecidableEq, Repr

/-- JS truthiness of a (finite) number: nonzero. -/
def jsTruthyNum (q : ℚ) : Bool := !(q == 0)

inductive ResultCard where
  | totalReturn
  | finalValue
  | sharpe
  | maxDrawdown
deriving DecidableEq, Repr

/-- The list of metric cards the backtest results panel renders, in source
order (`page.tsx` lines 495–541). -/
def renderedCards (m : PerformanceMetrics) : List ResultCard :=
  [ResultCard.totalReturn, ResultCard.finalValue] ++
    (if jsTruthyNum m.sharpe_ratio then
      [ResultCard.sharpe] ++
        (if jsTruthyNum m.max_drawdown then [ResultCard.maxDrawdown] else [])
    else [])

end AIHedgeFund

namespace AIHedgeFund

/-! ## Portfolio ledger and execution simulator

Modelled from the spec: the backtesting engine's ledger and execution
simulator are not in the source tree (only `BACKTESTING_API_GUIDE.md` and
frontend callers are); the definitions below follow §3 and §4.2 step 5 of the
design specification.  Positions map each ticker to long/short quantities and
weighted-average cost bases; orders execute at the day's closing price:
`buy`/`cover` consume cash, `sell`/`short` release or reserve cash, realized
gain on a closing trade is `(exit − basis) × qty`, and cost basis is a
weighted average over partial fills. -/

structure Position where
  long_quantity : ℕ
  short_quantity : ℕ
  long_cost_basis : ℚ
  short_cost_basis : ℚ
deriving DecidableEq, Repr

def Position.initial : Position := ⟨0, 0, 0, 0⟩

structure Portfolio where
  cash : ℚ
  positions : String → Position
  realized_gains : String → ℚ

/-- Market value of one position at a closing price:
`long_qty × price − short_qty × price`. -/
def Position.marketValue (p : Position) (price : ℚ) : ℚ :=
  p.long_quantity * price - p.short_quantity * price

/-- Modelled from the spec: `total_value = cash + Σ position market value`
over the session's tickers, at the day's closing prices. -/
def totalValue (tickers : List String) (prices : String → ℚ)
    (pf : Portfolio) : ℚ :=
  pf.cash + (tickers.map (fun t => (pf.positions t).marketValue (prices t))).sum

inductive Action where
  | buy
  | sell
  | short
  | cover
  | hold
deriving DecidableEq, Repr

structure Order where
  ticker : String
  action : Action
  quantity : ℕ
  reasoning : String
deriving DecidableEq, Repr

/-- Pointwise update of a ticker-keyed map. -/
def updateAt {α : Type} (m : String → α) (t : String) (v : α) : String → α :=
  fun t' => if t' = t then v else m t'

/-- Modelled from the spec (§4.2 step 5): apply one order at the day's closing
price.  `sell`/`cover` are additionally clipped to the held quantity so a
close can never exceed the position. -/
def applyOrder (price : ℚ) (pf : Portfolio) (o : Order) : Portfolio :=
  let p := pf.positions o.ticker
  match o.action with
  | Action.hold => pf
  | Action.buy =>
    let q := o.quantity
    let newLong := p.long_quantity + q
    let newBasis :=
      if newLong = 0 then p.long_cost_basis
      else (p.long_cost_basis * p.long_quantity + price * q) / newLong
    { pf with
      cash := pf.cash - q * price
      positions := updateAt pf.positions o.ticker
        { p with long_quantity := newLong, long_cost_basis := newBasis } }
  | Action.sell =>
    let q := min o.quantity p.long_quantity
    { pf with
      cash := pf.cash + q * price
      positions := updateAt pf.positions o.ticker
        { p with long_quantity := p.long_quantity - q }
      realized_gains := updateAt pf.realized_gains o.ticker
        (pf.realized_gains o.ticker + (price - p.long_cost_basis) * q) }
  | Action.short =>
    let q := o.quantity
    let newShort := p.short_quantity + q
    let newBasis :=
      if newShort = 0 then p.short_cost_basis
      else (p.short_cost_basis * p.short_quantity + price * q) / newShort
    { pf with
      cash := pf.cash + q * price
      positions := updateAt pf.positions o.ticker
        { p with short_quantity := newShort, short_cost_basis := newBasis } }
  | Action.cover =>
    let q := min o.quantity p.short_quantity
    { pf with
      cash := pf.cash - q * price
      positions := updateAt pf.positions o.ticker
        { p with short_quantity := p.short_quantity - q }
      realized_gains := updateAt pf.realized_gains o.ticker
        (pf.realized_gains o.ticker + (p.short_cost_basis - price) * q) }

/-- Execute a whole day's orders in sequence at that day's closing prices. -/
def executeDay (prices : String → ℚ) (pf : Portfolio) (orders : List Order) :
    Portfolio :=
  orders.foldl (fun acc o => applyOrder (prices o.ticker) acc o) pf

/-- Modelled from the spec (§3): the daily snapshot appended by the ledger at
the end of each simulated day.  `total_value` is recorded as
`cash + Σ position market value` at that day's closing prices. -/
structure DailySnapshot where
  date : ℕ
  cash : ℚ
  total_value : ℚ
  positionsSnap : String → Position
  daily_return : ℚ

/-- Modelled from the spec (§4.2 steps 5–7): run one day — execute the orders,
then append the `DailySnapshot` recording cash, positions and `total_value`
for that day (`daily_return = value_today/value_yesterday − 1`). -/
def runDay (tickers : List String) (prices : String → ℚ) (date : ℕ)
    (prevValue : ℚ) (pf : Portfolio) (orders : List Order) :
    Portfolio × DailySnapshot :=
  let pf' := executeDay prices pf orders
  let tv := totalValue tickers prices pf'
  (pf', ⟨date, pf'.cash, tv, pf'.positions,
    if prevValue = 0 then 0 else tv / prevValue - 1⟩)

/-- One simulated day's inputs: closing prices and the day's orders. -/
structure DayInput where
  prices : String → ℚ
  orders : List Order

/-- Modelled from the spec: the whole simulation's snapshot history, one
snapshot appended per day, dates ascending from 1. -/
def runHistory (tickers : List String) (pf₀ : Portfolio) (days : List DayInput) :
    List DailySnapshot :=
  (days.foldl
    (fun (st : Portfolio × ℚ × ℕ × List DailySnapshot) d =>
      let (pf, prevValue, date, snaps) := st
      let (pf', snap) := runDay tickers d.prices date prevValue pf d.orders
      (pf', snap.total_value, date + 1, snaps ++ [snap]))
    (pf₀, pf₀.cash, 1, [])).2.2.2

end AIHedgeFund

namespace AIHedgeFund

/-! ## Signals, risk manager and portfolio manager

Modelled from the spec (§3, §4.2 steps 3–4, §4.3, §4.4): both managers are
pure functions.  The risk manager yields a per-ticker position cap
`min(share-of-portfolio limit, margin-adjusted limit)`; the portfolio manager
weights each producer's direction by its confidence, lets the
majority-weighted direction win (exact ties default to `hold`), and clips the
quantity to the cap and to available cash/shares. -/

inductive Direction where
  | bullish
  | bearish
  | neutral
deriving DecidableEq, Repr

structure Signal where
  producer_id : String
  ticker : String
  direction : Direction
  confidence : ℚ
  reasoning : String
deriving DecidableEq, Repr

/-- Total confidence-weighted vote for one direction in a day's signal set. -/
def directionWeight (d : Direction) (signals : List Signal) : ℚ :=
  ((signals.filter (fun s => s.direction = d)).map Signal.confidence).sum

/-- Modelled from the spec: configured risk limits — the maximal fraction of
portfolio value in a single ticker, and the margin requirement backing
aggregate short exposure. -/
structure RiskLimits where
  maxPositionFraction : ℚ
  marginRequirement : ℚ
deriving DecidableEq, Repr

/-- Modelled from the spec (§4.2 step 3, §4.3): the risk manager's per-ticker
share cap, `min(share-of-portfolio limit, margin-adjusted limit)`, a pure
function of portfolio state, the day's prices and the configured limits. -/
def riskManagerCap (limits : RiskLimits) (tickers : List String)
    (prices : String → ℚ) (pf : Portfolio) (ticker : String) : ℕ :=
  let tv := totalValue tickers prices pf
  let price := prices ticker
  let shareLimit :=
    if price ≤ 0 then 0 else (⌊limits.maxPositionFraction * tv / price⌋).toNat
  let marginLimit :=
    if price ≤ 0 then 0
    else if limits.marginRequirement ≤ 0 then shareLimit
    else (⌊tv / (limits.marginRequirement * price)⌋).toNat
  min shareLimit marginLimit

/-- Modelled from the spec (§4.2 step 4, §4.4): the portfolio manager's one
order per ticker.  Bullish consensus buys `min cap ⌊cash/price⌋`; bearish
consensus sells the whole long position if one exists, otherwise shorts up to
the cap; exact ties hold.  The attached reasoning is purely descriptive. -/
def portfolioManagerOrder (ticker : String) (signals : List Signal) (cap : ℕ)
    (pf : Portfolio) (price : ℚ) : Order :=
  let bull := directionWeight Direction.bullish signals
  let bear := directionWeight Direction.bearish signals
  if bull > bear then
    let affordable := if price ≤ 0 then 0 else (⌊pf.cash / price⌋).toNat
    ⟨ticker, Action.buy, min cap affordable, "bullish consensus"⟩
  else if bear > bull then
    let p := pf.positions ticker
    if 0 < p.long_quantity then
      ⟨ticker, Action.sell, p.long_quantity, "bearish consensus"⟩
    else
      ⟨ticker, Action.short, cap, "bearish consensus"⟩
  else
    ⟨ticker, Action.hold, 0, "no consensus"⟩

/-- Erase the descriptive reasoning text of a signal. -/
def Signal.eraseReasoning (s : Signal) : Signal := { s with reasoning := "" }

/-- The computed part of an order: everything but the reasoning text. -/
def Order.core (o : Order) : String × Action × ℕ := (o.ticker, o.action, o.quantity)

end AIHedgeFund

namespace AIHedgeFund

/-! ## Performance calculator

Modelled from the spec (§4.2 step 8, §4.5): metrics are derived from the
append-only snapshot series only.  `Sharpe = mean/stddev × √252`, reported as
`0` whenever the standard deviation of daily returns is zero, so the reported
value is always a (finite) real number. -/

/-- Arithmetic mean of a list of rationals (0 for the empty list). -/
def listMean (l : List ℚ) : ℚ := l.sum / l.length

/-- Population variance of a list of rationals (0 for the empty list). -/
def listVariance (l : List ℚ) : ℚ :=
  ((l.map (fun x => (x - listMean l) ^ 2)).sum) / l.length

/-- The daily-return series of a snapshot history. -/
def dailyReturns (snaps : List DailySnapshot) : List ℚ :=
  snaps.map DailySnapshot.daily_return

/-- Modelled from the spec: the reported Sharpe ratio,
`mean(daily_return)/stddev(daily_return) × √252`, and `0` when the standard
deviation is zero (equivalently, when the variance is zero). -/
noncomputable def sharpeRatio (returns : List ℚ) : ℝ :=
  if listVariance returns = 0 then 0
  else (listMean returns : ℝ) / Real.sqrt (listVariance returns) * Real.sqrt 252

end AIHedgeFund

namespace AIHedgeFund

/-! ## Session controller

Modelled from the spec (§4.1): `start(request)` validates non-empty tickers,
at least one selected producer, `start_date < end_date` and
`initial_cash > 0`; on failure it raises `ValidationError` (HTTP 400) and
creates no session, otherwise it immediately returns a fresh session id with
the session created in state `pending`. -/

inductive SessionStatus where
  | pending
  | running
  | completed
  | cancelled
  | failed
deriving DecidableEq, Repr

structure StartRequest where
  tickers : List String
  selected_producers : List String
  start_date : ℕ
  end_date : ℕ
  initial_cash : ℚ
  margin_requirement : ℚ
deriving DecidableEq, Repr

inductive StartError where
  | validationError (message : String)
deriving DecidableEq, Repr

/-- The HTTP status a start error maps to. -/
def StartError.httpStatus : StartError → ℕ
  | StartError.validationError _ => 400

structure Session where
  id : ℕ
  status : SessionStatus
  request : StartRequest
deriving DecidableEq, Repr

/-- The four validation conditions of `start`, as one boolean. -/
def validStartRequest (r : StartRequest) : Bool :=
  !r.tickers.isEmpty && !r.selected_producers.isEmpty &&
    decide (r.start_date < r.end_date) && decide (0 < r.initial_cash)

/-- Modelled from the spec (§4.1): `start(request) -> session_id`.  `nextId`
models the controller's fresh-id supply; the created session is `pending`. -/
def start (r : StartRequest) (nextId : ℕ) : Except StartError (ℕ × Session) :=
  if validStartRequest r then
    Except.ok (nextId, ⟨nextId, SessionStatus.pending, r⟩)
  else
    Except.error (StartError.validationError "invalid backtest request")

end AIHedgeFund

namespace AIHedgeFund

/-! ## Day loop with cooperative cancellation

Modelled from the spec (§4.2, §4.1 `cancel`): each simulated day emits
`progress`, one `trading` event per non-hold order, then `portfolio_update`
and `performance_update`; a day's mutations are atomic.  The cancellation
flag is observed only at day boundaries: at the end of a fully processed day
the loop checks it, and if set it stops, transitions to `cancelled` and emits
one terminal event; on clean completion it emits `complete`. -/

inductive EventType where
  | progress
  | trading
  | portfolio_update
  | performance_update
  | complete
  | cancelledEvent
deriving DecidableEq, Repr

/-- The event block of one fully processed day (`trades` non-hold orders). -/
def dayEvents (trades : ℕ) : List EventType :=
  [EventType.progress] ++ List.replicate trades EventType.trading ++
    [EventType.portfolio_update, EventType.performance_update]

/-- Whether the cancellation flag (requested during day `c`) is observed at
the boundary at the end of day `d`. -/
def cancelObserved (cancelDuring : Option ℕ) (d : ℕ) : Bool :=
  match cancelDuring with
  | none => false
  | some c => decide (c ≤ d)

/-- Modelled from the spec: the day loop from day `done + 1`, with `n` days
remaining, emitting each day's block atomically and checking the cancellation
flag at each day boundary.  Returns the emitted events and final status. -/
def loopDays (trades : ℕ → ℕ) (cancelDuring : Option ℕ) :
    ℕ → ℕ → List EventType × SessionStatus
  | 0, _ => ([EventType.complete], SessionStatus.completed)
  | n + 1, done =>
    let evs := dayEvents (trades (done + 1))
    if cancelObserved cancelDuring (done + 1) then
      (evs ++ [EventType.cancelledEvent], SessionStatus.cancelled)
    else
      let r := loopDays trades cancelDuring n (done + 1)
      (evs ++ r.1, r.2)

/-- Modelled from the spec: run a session of `total` days with a cancellation
request arriving during day `cancelDuring` (if any). -/
def runSession (total : ℕ) (trades : ℕ → ℕ) (cancelDuring : Option ℕ) :
    List EventType × SessionStatus :=
  loopDays trades cancelDuring total 0

end AIHedgeFund

namespace AIHedgeFund

/-! ## HTTP API shapes

Field lists of the backtesting API bodies, taken from the code: the request
body built by `runBacktest` in `app/frontend/app/hedge-fund/page.tsx`
(lines 151–160) and the documented response shapes in
`app/backend/BACKTESTING_API_GUIDE.md` (the backend itself is not in the
source tree; the guide is its in-repo declaration). -/

/-- `page.tsx` `runBacktest`: the keys of the JSON body POSTed to
`/backtest/run-sync`, in source order. -/
def runBacktestBodyFields : List String :=
  ["tickers", "selected_agents", "model_name", "model_provider",
   "initial_capital", "margin_requirement", "start_date", "end_date"]

/-- `BACKTESTING_API_GUIDE.md`: the keys of the documented `/backtest/start`
request body (also the `/backtest/run-sync` body). -/
def guideStartBodyFields : List String :=
  ["tickers", "selected_agents", "start_date", "end_date", "model_name",
   "model_provider", "initial_capital", "margin_requirement", "show_reasoning"]

/-- `BACKTESTING_API_GUIDE.md`: the keys of the documented `/backtest/start`
response. -/
def guideStartResponseFields : List String :=
  ["backtest_id", "status", "message", "stream_url", "status_url"]

/-- `BACKTESTING_API_GUIDE.md`: the keys of the documented
`/backtest/run-sync` response. -/
def guideRunSyncResponseFields : List String :=
  ["status", "performance_metrics", "portfolio_history", "final_portfolio"]

/-- The claim's asserted request-body field set, following the spec's words
(§6 `POST start`), for comparison against the code's body. -/
def specClaimStartBodyFields : List String :=
  ["tickers", "selected_signal_producers", "start_date", "end_date",
   "initial_cash", "margin_requirement"]

end AIHedgeFund

namespace AIHedgeFund

/-! ## Concrete inputs used by scenario theorems -/

/-- Scenario A's single bullish producer signal for ticker "X". -/
def scenarioASignal : Signal :=
  ⟨"producer1", "X", Direction.bullish, 100, "bullish thesis"⟩

/-- Scenario A's starting portfolio: 100000 cash, no positions. -/
def scenarioAPortfolio : Portfolio :=
  ⟨100000, fun _ => Position.initial, fun _ => 0⟩

/-- A concrete portfolio used to instantiate universally quantified theorems. -/
def witnessPortfolio : Portfolio :=
  ⟨50000, fun _ => Position.initial, fun _ => 0⟩

end AIHedgeFund

namespace AIHedgeFund

/-! ## Supporting lemmas -/

lemma runHistory_step_length (tickers : List String) (days : List DayInput) :
    ∀ st : Portfolio × ℚ × ℕ × List DailySnapshot,
      ((days.foldl
        (fun (st : Portfolio × ℚ × ℕ × List DailySnapshot) d =>
          let (pf, prevValue, date, snaps) := st
          let (pf', snap) := runDay tickers d.prices date prevValue pf d.orders
          (pf', snap.total_value, date + 1, snaps ++ [snap]))
        st).2.2.2).length = st.2.2.2.length + days.length := by
  induction days with
  | nil => intro st; simp
  | cons d ds ih =>
    intro st
    obtain ⟨pf, prevValue, date, snaps⟩ := st
    simp only [List.foldl_cons]
    rw [ih]
    simp [runDay]
    omega

lemma directionWeight_cons (d : Direction) (s : Signal) (l : List Signal) :
    directionWeight d (s :: l) =
      (if s.direction = d then s.confidence else 0) + directionWeight d l := by
  by_cases hd : s.direction = d <;>
    simp [directionWeight, List.filter_cons, hd]

lemma directionWeight_erase (d : Direction) (l : List Signal) :
    directionWeight d (l.map Signal.eraseReasoning) = directionWeight d l := by
  induction l with
  | nil => rfl
  | cons s t ih =>
    rw [List.map_cons, directionWeight_cons, directionWeight_cons, ih]
    rfl

lemma count_dayEvents (t : ℕ) :
    (dayEvents t).count EventType.portfolio_update = 1 ∧
    (dayEvents t).count EventType.progress = 1 ∧
    (dayEvents t).count EventType.performance_update = 1 ∧
    (dayEvents t).count EventType.cancelledEvent = 0 ∧
    dayEvents t ≠ [] := by
  refine ⟨?_, ?_, ?_, ?_, by simp [dayEvents]⟩ <;>
    simp [dayEvents, List.count_append, List.count_cons, List.count_replicate]

lemma loopDays_cancelled (trades : ℕ → ℕ) (c : ℕ) :
    ∀ n done : ℕ, done < c → c ≤ done + n →
      ((loopDays trades (some c) n done).1.count EventType.portfolio_update = c - done) ∧
      ((loopDays trades (some c) n done).1.count EventType.progress = c - done) ∧
      ((loopDays trades (some c) n done).1.count EventType.performance_update = c - done) ∧
      ((loopDays trades (some c) n done).1.count EventType.cancelledEvent = 1) ∧
      ((loopDays trades (some c) n done).1.getLast? = some EventType.cancelledEvent) ∧
      (loopDays trades (some c) n done).2 = SessionStatus.cancelled := by
  intro n
  induction n with
  | zero => intro done h1 h2; omega
  | succ m ih =>
    intro done h1 h2
    by_cases hobs : c ≤ done + 1
    · have hobs' : cancelObserved (some c) (done + 1) = true := by
        simp [cancelObserved]; omega
      have hstep : loopDays trades (some c) (m + 1) done =
          (dayEvents (trades (done + 1)) ++ [EventType.cancelledEvent],
            SessionStatus.cancelled) := by
        simp [loopDays, hobs']
      obtain ⟨cp, cg, cf, cc, hne⟩ := count_dayEvents (trades (done + 1))
      rw [hstep]
      refine ⟨?_, ?_, ?_, ?_, ?_, rfl⟩
      · rw [List.count_append, cp]; simp [List.count_cons]; omega
      · rw [List.count_append, cg]; simp [List.count_cons]; omega
      · rw [List.count_append, cf]; simp [List.count_cons]; omega
      · rw [List.count_append, cc]; simp [List.count_cons]
      · rw [List.getLast?_append]; rfl
    · have hobs' : cancelObserved (some c) (done + 1) = false := by
        simp [cancelObserved]; omega
      have hstep : loopDays trades (some c) (m + 1) done =
          (dayEvents (trades (done + 1)) ++ (loopDays trades (some c) m (done + 1)).1,
            (loopDays trades (some c) m (done + 1)).2) := by
        simp [loopDays, hobs']
      have h1' : done + 1 < c := by omega
      have h2' : c ≤ done + 1 + m := by omega
      obtain ⟨rp, rg, rf, rc, rl, rs⟩ := ih (done + 1) h1' h2'
      obtain ⟨cp, cg, cf, cc, hne⟩ := count_dayEvents (trades (done + 1))
      rw [hstep]
      refine ⟨?_, ?_, ?_, ?_, ?_, rs⟩
      · rw [List.count_append, cp, rp]; omega
      · rw [List.count_append, cg, rg]; omega
      · rw [List.count_append, cf, rf]; omega
      · rw [List.count_append, cc, rc]
      · rw [List.getLast?_append, rl]; rfl

end AIHedgeFund

namespace AIHedgeFund

/-! ## Claim theorems -/

/-- Claim C1: every `DailySnapshot` appended by the execution simulator /
portfolio ledger records a `total_value` equal to `cash` plus the sum over
the session's tickers of `long_qty × price − short_qty × price`, within an
absolute tolerance of `1e-6` (here the difference is exactly zero at rational
precision); and the history appends exactly one snapshot per simulated day. -/
theorem snapshot_value_consistent (tickers : List String) (prices : String → ℚ)
    (date : ℕ) (prevValue : ℚ) (pf : Portfolio) (orders : List Order)
    (pf₀ : Portfolio) (days : List DayInput) :
    |(runDay tickers prices date prevValue pf orders).2.total_value -
        ((runDay tickers prices date prevValue pf orders).2.cash +
          (tickers.map (fun t =>
            (((runDay tickers prices date prevValue pf orders).2.positionsSnap t).long_quantity : ℚ)
                * prices t -
              (((runDay tickers prices date prevValue pf orders).2.positionsSnap t).short_quantity : ℚ)
                * prices t)).sum)| ≤ 1 / 1000000 ∧
      (runHistory tickers pf₀ days).length = days.length := by
  constructor
  · simp [runDay, totalValue, Position.marketValue]
  · rw [runHistory, runHistory_step_length]
    simp

/-- Claim C2, counterexample: in Scenario A (initial cash 100000, one bullish
producer on ticker "X", risk cap 100 shares, price 150) the claimed order
quantity `min(100, ⌊100000/150⌋) = 666` and post-trade cash `900` are both
false of the code: `⌊100000/150⌋ = 666` but the min is `100`, and post-trade
cash is `85000`. -/
theorem scenarioA_claim_false :
    (⌊(100000 : ℚ) / 150⌋).toNat = 666 ∧
    (portfolioManagerOrder "X" [scenarioASignal] 100 scenarioAPortfolio 150).quantity = 100 ∧
    (portfolioManagerOrder "X" [scenarioASignal] 100 scenarioAPortfolio 150).quantity ≠ 666 ∧
    (applyOrder 150 scenarioAPortfolio
        (portfolioManagerOrder "X" [scenarioASignal] 100 scenarioAPortfolio 150)).cash = 85000 ∧
    (applyOrder 150 scenarioAPortfolio
        (portfolioManagerOrder "X" [scenarioASignal] 100 scenarioAPortfolio 150)).cash ≠ 900 := by
  refine ⟨by norm_num; rfl, ?_, ?_, ?_, ?_⟩ <;>
    norm_num +decide [portfolioManagerOrder, directionWeight, scenarioASignal,
      scenarioAPortfolio, Position.initial, List.filter, applyOrder]

/-- Claim C2, amended: in Scenario A the portfolio manager emits
`Order{buy, qty = min(100, ⌊100000/150⌋)} = Order{buy, qty = 100}` and after
execution at price 150 the portfolio's cash equals `100000 − 100×150 = 85000`. -/
theorem scenarioA_amended :
    portfolioManagerOrder "X" [scenarioASignal] 100 scenarioAPortfolio 150 =
      ⟨"X", Action.buy, min 100 ((⌊(100000 : ℚ) / 150⌋).toNat), "bullish consensus"⟩ ∧
    min 100 ((⌊(100000 : ℚ) / 150⌋).toNat) = 100 ∧
    (applyOrder 150 scenarioAPortfolio
        (portfolioManagerOrder "X" [scenarioASignal] 100 scenarioAPortfolio 150)).cash
      = 100000 - 100 * 150 := by
  refine ⟨?_, by norm_num, ?_⟩ <;>
    norm_num +decide [portfolioManagerOrder, directionWeight, scenarioASignal,
      scenarioAPortfolio, Position.initial, List.filter, applyOrder]

/-- Claim C3: the performance calculator reports
`Sharpe = mean(daily_return)/stddev(daily_return) × √252`, and when the
standard deviation is zero (equivalently, the variance is zero — e.g. a
constant `daily_return = 0` series of any length) it reports `0`; its value
is a total real number, never NaN or ±∞. -/
theorem sharpe_zero_on_zero_stddev (returns : List ℚ) (n : ℕ) :
    sharpeRatio returns =
      (if listVariance returns = 0 then 0
       else (listMean returns : ℝ) / Real.sqrt (listVariance returns) * Real.sqrt 252) ∧
    (listVariance returns = 0 → sharpeRatio returns = 0) ∧
    listVariance (List.replicate n 0) = 0 ∧
    sharpeRatio (List.replicate n 0) = 0 := by
  have hv : listVariance (List.replicate n (0 : ℚ)) = 0 := by
    simp [listVariance, listMean, List.map_replicate, List.sum_replicate]
  refine ⟨rfl, ?_, hv, ?_⟩
  · intro h
    simp [sharpeRatio, h]
  · simp [sharpeRatio, hv]

/-- Witness for C3: the constant zero-return series `[0, 0, 0]` has zero
variance and reported Sharpe exactly `0`. -/
theorem sharpe_zero_on_zero_stddev_witness :
    listVariance ([0, 0, 0] : List ℚ) = 0 ∧ sharpeRatio [0, 0, 0] = 0 := by
  have hv : listVariance ([0, 0, 0] : List ℚ) = 0 := by
    simp [listVariance, listMean]
  exact ⟨hv, (sharpe_zero_on_zero_stddev [0, 0, 0] 0).2.1 hv⟩

/-- Claim C4: the risk manager and portfolio manager are deterministic pure
functions — identical inputs give identical outputs — and the reasoning text
attached to signals never affects the computed order: signal lists equal up
to their reasoning fields yield the very same order. -/
theorem managers_deterministic (limits : RiskLimits) (tickers : List String)
    (prices : String → ℚ) (pf : Portfolio) (ticker : String) (cap : ℕ) (price : ℚ)
    (signals₁ signals₂ : List Signal) :
    riskManagerCap limits tickers prices pf ticker =
      riskManagerCap limits tickers prices pf ticker ∧
    portfolioManagerOrder ticker signals₁ cap pf price =
      portfolioManagerOrder ticker signals₁ cap pf price ∧
    (signals₁.map Signal.eraseReasoning = signals₂.map Signal.eraseReasoning →
      portfolioManagerOrder ticker signals₁ cap pf price =
        portfolioManagerOrder ticker signals₂ cap pf price) := by
  refine ⟨rfl, rfl, ?_⟩
  intro h
  have hw : ∀ d, directionWeight d signals₁ = directionWeight d signals₂ := by
    intro d
    rw [← directionWeight_erase d signals₁, ← directionWeight_erase d signals₂, h]
  simp only [portfolioManagerOrder, hw]

/-- Witness for C4: two signal lists that differ only in their reasoning
text produce the identical order. -/
theorem managers_deterministic_witness :
    portfolioManagerOrder "X"
        [⟨"p1", "X", Direction.bullish, 60, "strong upside"⟩] 100 witnessPortfolio 150 =
      portfolioManagerOrder "X"
        [⟨"p1", "X", Direction.bullish, 60, "momentum view"⟩] 100 witnessPortfolio 150 :=
  (managers_deterministic ⟨(1 : ℚ) / 5, 0⟩ ["X"] (fun _ => 150) witnessPortfolio "X" 100 150
    [⟨"p1", "X", Direction.bullish, 60, "strong upside"⟩]
    [⟨"p1", "X", Direction.bullish, 60, "momentum view"⟩]).2.2 rfl

/-- Claim C5: `start(request)` fails with a `ValidationError` (HTTP 400),
creating no session, exactly when the request violates one of: non-empty
tickers, at least one selected producer, `start_date < end_date`,
`initial_cash > 0`; for every request satisfying all four it returns a fresh
session id with the session created in state `pending`. -/
theorem start_validates_exactly (r : StartRequest) (nextId : ℕ) :
    match start r nextId with
    | Except.error err =>
        (r.tickers = [] ∨ r.selected_producers = [] ∨
          ¬r.start_date < r.end_date ∨ ¬0 < r.initial_cash) ∧
        err.httpStatus = 400
    | Except.ok (sid, s) =>
        ¬(r.tickers = [] ∨ r.selected_producers = [] ∨
          ¬r.start_date < r.end_date ∨ ¬0 < r.initial_cash) ∧
        sid = nextId ∧ s.id = nextId ∧ s.status = SessionStatus.pending ∧
        s.request = r := by
  by_cases h : validStartRequest r = true
  · rw [start, if_pos h]
    simp only [validStartRequest, Bool.and_eq_true, Bool.not_eq_true',
      List.isEmpty_eq_false, decide_eq_true_eq] at h
    refine ⟨?_, rfl, rfl, rfl, rfl⟩
    push_neg
    tauto
  · rw [start, if_neg h]
    refine ⟨?_, rfl⟩
    simp only [validStartRequest, Bool.and_eq_true, Bool.not_eq_true',
      List.isEmpty_eq_false, decide_eq_true_eq, not_and_or] at h
    tauto

/-- Claim C6: cancellation is cooperative and observed only at day
boundaries: a cancel requested during day `c` of a `total`-day session stops
the loop at that day's boundary with status `cancelled`; every processed day
is committed atomically (its full event block — `progress`,
`portfolio_update`, `performance_update` — appears exactly once per day), so
exactly `c` `portfolio_update` events are emitted, the terminal cancelled
event is emitted once and is the last event, and no events follow it.  In
particular a cancel after day 3 of 10 yields exactly 3 `portfolio_update`
events. -/
theorem cancellation_at_day_boundary (total c : ℕ) (trades : ℕ → ℕ)
    (h1 : 1 ≤ c) (h2 : c ≤ total) :
    ((runSession total trades (some c)).1.count EventType.portfolio_update = c) ∧
    ((runSession total trades (some c)).1.count EventType.progress = c) ∧
    ((runSession total trades (some c)).1.count EventType.performance_update = c) ∧
    ((runSession total trades (some c)).1.count EventType.cancelledEvent = 1) ∧
    ((runSession total trades (some c)).1.getLast? = some EventType.cancelledEvent) ∧
    (runSession total trades (some c)).2 = SessionStatus.cancelled := by
  have h := loopDays_cancelled trades c total 0 (by omega) (by omega)
  simpa [runSession] using h

/-- Witness for C6: cancel requested after day 3 of a 10-day session —
exactly 3 `portfolio_update` events, the terminal cancelled event last, and
final status `cancelled`. -/
theorem cancellation_witness :
    ((runSession 10 (fun _ => 1) (some 3)).1.count EventType.portfolio_update = 3) ∧
    ((runSession 10 (fun _ => 1) (some 3)).1.getLast? = some EventType.cancelledEvent) ∧
    (runSession 10 (fun _ => 1) (some 3)).2 = SessionStatus.cancelled :=
  ⟨(cancellation_at_day_boundary 10 3 (fun _ => 1) (by norm_num) (by norm_num)).1,
   (cancellation_at_day_boundary 10 3 (fun _ => 1) (by norm_num) (by norm_num)).2.2.2.2.1,
   (cancellation_at_day_boundary 10 3 (fun _ => 1) (by norm_num) (by norm_num)).2.2.2.2.2⟩

/-- Claim C7, counterexample: the claimed request-body field set
`{tickers, selected_signal_producers, start_date, end_date, initial_cash,
margin_requirement}` is not the body the code uses — `runBacktest` sends
`selected_agents` and `initial_capital` (plus model fields), and neither
`selected_signal_producers` nor `initial_cash` occurs in it. -/
theorem start_body_fields_differ_from_claim :
    "selected_signal_producers" ∈ specClaimStartBodyFields ∧
    "selected_signal_producers" ∉ runBacktestBodyFields ∧
    "initial_cash" ∉ runBacktestBodyFields ∧
    specClaimStartBodyFields ≠ runBacktestBodyFields := by
  decide

/-- Claim C7, amended: the body `runBacktest` POSTs to `/backtest/run-sync`
is exactly `{tickers, selected_agents, model_name, model_provider,
initial_capital, margin_requirement, start_date, end_date}`, every one of its
fields is accepted by the documented `/backtest/start` body (which adds
`show_reasoning`), the documented run-sync response is
`{status, performance_metrics, portfolio_history, final_portfolio}`, and the
documented start response is
`{backtest_id, status, message, stream_url, status_url}`. -/
theorem api_body_fields :
    runBacktestBodyFields =
      ["tickers", "selected_agents", "model_name", "model_provider",
       "initial_capital", "margin_requirement", "start_date", "end_date"] ∧
    (runBacktestBodyFields.all (guideStartBodyFields.contains ·)) = true ∧
    guideRunSyncResponseFields =
      ["status", "performance_metrics", "portfolio_history", "final_portfolio"] ∧
    guideStartResponseFields =
      ["backtest_id", "status", "message", "stream_url", "status_url"] := by
  refine ⟨rfl, ?_, rfl, rfl⟩
  decide

/-- Claim C8: for a tickers input that is not all-whitespace but contains a
comma-separated entry that is empty after trimming, the request body built by
`runBacktest`/`runAnalysis` includes the empty string as a ticker, while the
dashboard's "Tracked Stocks" count excludes such entries; and the pre-send
guard rejects (on the tickers side) only an all-whitespace string. -/
theorem empty_ticker_entries_sent (s : List Char) (agentsLen : ℕ) (e : List Char)
    (hws : jsTrim s ≠ []) (hmem : e ∈ splitComma s) (hempty : jsTrim e = [])
    (hagents : agentsLen ≠ 0) :
    guardRejects s agentsLen = false ∧
    [] ∈ requestTickers s ∧
    trackedStocksCount s < (splitComma s).length ∧
    (∀ s' : List Char, guardRejects s' agentsLen = true ↔ jsTrim s' = []) := by
  refine ⟨?_, ?_, ?_, ?_⟩
  · simp [guardRejects, jsTruthyStr, List.isEmpty_iff, hws, hagents]
  · exact List.mem_map.mpr ⟨e, hmem, by rw [hempty]; rfl⟩
  · exact List.length_filter_lt_length_iff_exists.mpr
      ⟨e, hmem, by simp [jsTruthyStr, hempty]⟩
  · intro s'
    simp [guardRejects, jsTruthyStr, List.isEmpty_iff, hagents]

/-- Witness for C8: the input `"X,"` passes the guard, sends the empty string
as a ticker, and is counted as a single tracked stock out of two entries. -/
theorem empty_ticker_entries_sent_witness :
    guardRejects ['X', ','] 1 = false ∧
    [] ∈ requestTickers ['X', ','] ∧
    trackedStocksCount ['X', ','] < (splitComma ['X', ',']).length :=
  ⟨(empty_ticker_entries_sent ['X', ','] 1 [] (by decide) (by decide) (by decide)
      (by decide)).1,
   (empty_ticker_entries_sent ['X', ','] 1 [] (by decide) (by decide) (by decide)
      (by decide)).2.1,
   (empty_ticker_entries_sent ['X', ','] 1 [] (by decide) (by decide) (by decide)
      (by decide)).2.2.1⟩

/-- Claim C9: in the backtest results panel, a `sharpe_ratio` of exactly 0 is
falsy in JS, so the Sharpe Ratio card is not rendered at all, and likewise a
`max_drawdown` of exactly 0 renders no Max Drawdown card. -/
theorem zero_metrics_render_no_card (m : PerformanceMetrics) :
    (m.sharpe_ratio = 0 → ResultCard.sharpe ∉ renderedCards m) ∧
    (m.max_drawdown = 0 → ResultCard.maxDrawdown ∉ renderedCards m) := by
  constructor
  · intro h
    simp [renderedCards, jsTruthyNum, h]
  · intro h
    by_cases hs : jsTruthyNum m.sharpe_ratio <;>
      simp [renderedCards, jsTruthyNum, h, hs]

/-- Witness for C9: metrics with `sharpe_ratio = 0` and `max_drawdown = 0`
render neither the Sharpe nor the Max Drawdown card. -/
theorem zero_metrics_witness :
    ResultCard.sharpe ∉ renderedCards ⟨1, 2, 3, 0, 0⟩ ∧
    ResultCard.maxDrawdown ∉ renderedCards ⟨1, 2, 3, 0, 0⟩ :=
  ⟨(zero_metrics_render_no_card ⟨1, 2, 3, 0, 0⟩).1 rfl,
   (zero_metrics_render_no_card ⟨1, 2, 3, 0, 0⟩).2 rfl⟩

/-- Claim C10: `sendMessage` in `useAgentChat` is atomic on failure — if the
HTTP request throws or returns a non-ok status, the messages list is restored
to exactly its value before the call and the error state records the failure
message; on success exactly two messages (the user message, then one
assistant message) are appended and the error state is cleared. -/
theorem sendMessage_atomic (messages : List ChatMessage) (content : String) (now : ℕ) :
    (∀ e, sendMessage messages content now (Except.error e) = (messages, some e)) ∧
    (∀ resp, sendMessage messages content now (Except.ok resp) =
      (messages ++ [⟨toString now, ChatRole.user, content⟩,
        ⟨toString (now + 1), ChatRole.assistant, resp⟩], none)) := by
  constructor
  · intro e
    simp [sendMessage]
  · intro r
    simp [sendMessage]

end AIHedgeFund
